import Mathlib

/-!
Shallow embedding of the authentication / session subsystem of the
sales-BI dashboard (src/auth/handlers.py, src/auth/models.py,
src/auth/decorators.py).

Modelling conventions:
* Timestamps are natural numbers (seconds).  A stored timestamp string
  (`datetime.isoformat` output, or corrupted data) is modelled as
  `Option Nat`: `some t` is a well-formed ISO string denoting time `t`,
  `none` is a malformed string on which `datetime.fromisoformat` raises.
* `st.session_state` is modelled by the structure `SessionState`; a key that
  may be absent is an `Option`.
* The SHA-256 hex digest is an abstract parameter `digest : String → String`;
  `secrets.token_hex(32)` (a fresh random nonempty salt) is an abstract
  parameter `gen : String`.
* Values raised as Python exceptions are modelled with `PyOutcome`.
* Dynamically-typed datetime fields of the `User` dataclass are modelled by
  `PyVal`: a Python value that is `None`, a `datetime`, or a string.
-/

namespace Auth

/-- A dynamically typed Python value sitting in a datetime-ish field:
`none'` is Python `None`, `dt t` a `datetime` denoting time `t`,
`str p e` a string (`p = some t` iff it parses via `fromisoformat` to `t`;
`e = true` iff the string is empty, hence falsy). -/
inductive PyVal where
  | none'
  | dt (t : Nat)
  | str (p : Option Nat) (e : Bool)
deriving DecidableEq, Repr

/-- Truthiness of a `PyVal` under Python `if v:`. -/
def PyVal.truthy : PyVal → Bool
  | .none' => false
  | .dt _ => true
  | .str _ e => !e

/-- The tunables read from `AUTH_CONFIG` in `AuthHandler.__init__`. -/
structure Config where
  max_attempts : Nat
  lockout_duration : Nat
  session_timeout : Nat
deriving DecidableEq, Repr

/-- The `User` dataclass of `src/auth/models.py`.  The same structure also
stands for the dict produced by `to_dict` (same keys, same values). -/
structure User where
  id : Int
  username : String
  email : String
  role : String
  employee_id : Option Int
  is_active : Bool
  last_login : PyVal
  created_date : PyVal
deriving DecidableEq, Repr

/-- `User.has_any_role`: `self.role in roles`. -/
def User.has_any_role (u : User) (roles : List String) : Bool :=
  roles.contains u.role

/-- Serialization of one datetime-ish field in `User.to_dict`:
`self.x.isoformat() if self.x and isinstance(self.x, datetime) else None`.
A `datetime` becomes its (well-formed, nonempty) ISO string; anything else
becomes `None`. -/
def serializeDT : PyVal → PyVal
  | .dt t => .str (some t) false
  | _ => .none'

/-- `User.to_dict` of `src/auth/models.py`. -/
def User.to_dict (u : User) : User :=
  { u with last_login := serializeDT u.last_login,
           created_date := serializeDT u.created_date }

/-- The `last_login` conversion in `User.from_dict`: if the value is truthy
then a string is parsed (`fromisoformat`, `None` on failure) and a
non-`datetime` non-string is replaced by `None`; a falsy value is left
untouched.  `created_date` gets no such conversion. -/
def deserializeLastLogin : PyVal → PyVal
  | .none' => .none'
  | .dt t => .dt t
  | .str p e =>
      if e then .str p e
      else match p with
        | some t => .dt t
        | none => .none'

/-- `User.from_dict` of `src/auth/models.py` (the dict carries exactly the
valid field keys, so the extra-key filtering is the identity here). -/
def User.from_dict (d : User) : User :=
  { d with last_login := deserializeLastLogin d.last_login }

/-- A row of the `users` table, with the columns touched by the queries in
`src/auth/handlers.py`.  Nullable columns are `Option`s. -/
structure DBRow where
  id : Int
  username : String
  email : Option String
  role : Option String
  employee_id : Option Int
  is_active : Bool
  last_login : Option Nat
  created_date : Option Nat
  password_hash : Option String
  password_salt : Option String
  delete_flag : Bool
deriving DecidableEq, Repr

/-- `SELECT ... FROM users WHERE username = :username AND delete_flag = 0`,
followed by `df.iloc[0]` (first matching row) / `df.empty` (no row). -/
def usersQuery (db : List DBRow) (username : String) : Option DBRow :=
  db.find? (fun r => r.username == username && !r.delete_flag)

/-- `str(v) if v else d`: NULL and the empty string fall back to `d`. -/
def strOrD (v : Option String) (d : String) : String :=
  match v with
  | some s => if s.isEmpty then d else s
  | none => d

/-- `st.session_state` as used by `AuthHandler`: the keys `user`,
`authenticated`, `login_time` and the `failed_attempts_<username>` family.
`login_time : Option (Option Nat)` — outer option: key present; inner:
the stored string parses.  Failed-attempt lists hold parsed timestamps
(the code only ever stores `datetime.now().isoformat()` entries). -/
structure SessionState where
  user : Option User
  authenticated : Option Bool
  login_time : Option (Option Nat)
  failed : List (String × List Nat)
deriving DecidableEq, Repr

/-- The empty session store. -/
def SessionState.empty : SessionState := ⟨none, none, none, []⟩

/-- `st.session_state.get(f"failed_attempts_{username}", [])`. -/
def getAttempts (s : SessionState) (username : String) : List Nat :=
  match s.failed.find? (fun kv => kv.1 == username) with
  | some kv => kv.2
  | none => []

/-- Store a value under `failed_attempts_<username>`. -/
def setEntry : List (String × List Nat) → String → List Nat → List (String × List Nat)
  | [], u, v => [(u, v)]
  | (k, w) :: rest, u, v =>
      if k == u then (k, v) :: rest else (k, w) :: setEntry rest u v

/-- `st.session_state[f"failed_attempts_{username}"] = v`. -/
def setAttempts (s : SessionState) (username : String) (v : List Nat) : SessionState :=
  { s with failed := setEntry s.failed username v }

/-- `del st.session_state[f"failed_attempts_{username}"]` (no-op when the
key is absent): `AuthHandler.clear_failed_attempts`. -/
def clear_failed_attempts (s : SessionState) (username : String) : SessionState :=
  { s with failed := s.failed.filter (fun kv => kv.1 != username) }

/-- The Python exceptions this subsystem can raise. -/
inductive PyErr where
  | authError (msg : String)
  | indexError
  | valueError
deriving DecidableEq, Repr

/-- Result of running a Python method: a value, or a raised exception. -/
inductive PyOutcome (α : Type) where
  | ok (a : α)
  | raised (e : PyErr)
deriving DecidableEq, Repr

/-- `AuthHandler.hash_password`: `if not salt: salt = secrets.token_hex(32)`
(`gen` models that fresh random nonempty salt; `None` and the empty string
are both falsy), then the digest of `password + salt`, returning
`(hash, salt)`. -/
def hash_password (digest : String → String) (gen : String)
    (password : String) (salt : Option String) : String × String :=
  let salt := match salt with
    | some s => if s.isEmpty then gen else s
    | none => gen
  (digest (password ++ salt), salt)

/-- `AuthHandler.verify_password`: recompute the hash with the stored salt
and compare (the `except` branch is unreachable in this pure model). -/
def verify_password (digest : String → String) (gen : String)
    (password password_hash salt : String) : Bool :=
  (hash_password digest gen password (some salt)).1 == password_hash

/-- The profile row → `User` conversion in `AuthHandler.get_user`
(null/empty fallbacks for email and role, `pd.to_datetime`/`None` for the
timestamps). -/
def rowToUser (r : DBRow) : User :=
  { id := r.id
    username := r.username
    email := strOrD r.email ""
    role := strOrD r.role "viewer"
    employee_id := r.employee_id
    is_active := r.is_active
    last_login := match r.last_login with | some t => .dt t | none => .none'
    created_date := match r.created_date with | some t => .dt t | none => .none' }

/-- `AuthHandler.get_user`: profile query (same `WHERE` clause as the
credential query), `None` when no row matches. -/
def get_user (db : List DBRow) (username : String) : Option User :=
  match usersQuery db username with
  | some r => some (rowToUser r)
  | none => none

/-- `AuthHandler.update_last_login`:
`UPDATE users SET last_login = NOW() WHERE username = :username`
(note: no `delete_flag` filter in this statement). -/
def update_last_login (db : List DBRow) (username : String) (now : Nat) : List DBRow :=
  db.map (fun r => if r.username == username then { r with last_login := some now } else r)

/-- `AuthHandler.is_account_locked`.  `attempts[-1]` on an empty list raises
`IndexError`; `datetime.now() < last + lockout_duration` keeps the lock;
otherwise the expired attempt list is cleared in session state.  Returns the
boolean together with the (possibly updated) session state. -/
def is_account_locked (cfg : Config) (now : Nat) (s : SessionState)
    (username : String) : PyOutcome (Bool × SessionState) :=
  let attempts := getAttempts s username
  if cfg.max_attempts ≤ attempts.length then
    match attempts.getLast? with
    | some last =>
        if now < last + cfg.lockout_duration then .ok (true, s)
        else .ok (false, setAttempts s username [])
    | none => .raised .indexError
  else .ok (false, s)

/-- `AuthHandler.record_failed_attempt`: append `now`, prune entries not
strictly newer than `now - lockout_duration` (datetime arithmetic, hence the
`Int` comparison), store the pruned list.  The `st.warning`/`st.error`
emissions carry no state. -/
def record_failed_attempt (cfg : Config) (now : Nat) (s : SessionState)
    (username : String) : SessionState :=
  let attempts := getAttempts s username ++ [now]
  let attempts := attempts.filter (fun (a : Nat) => (now : Int) - cfg.lockout_duration < (a : Int))
  setAttempts s username attempts

/-- Message of the lockout `AuthenticationError`. -/
def lockedMsg : String := "Account is temporarily locked due to multiple failed attempts"

/-- Message of the deactivated-account `AuthenticationError`. -/
def deactivatedMsg : String := "Account is deactivated"

/-- `AuthHandler.authenticate`.  The lockout check runs before the `try`
block, so its `IndexError` propagates raw; `AuthenticationError`s re-raise;
mutations of session state made before a raise persist (hence the state and
database are returned alongside the outcome). -/
def authenticate (digest : String → String) (gen : String) (cfg : Config)
    (now : Nat) (db : List DBRow) (s : SessionState)
    (username password : String) :
    PyOutcome (Option User) × SessionState × List DBRow :=
  match is_account_locked cfg now s username with
  | .raised e => (.raised e, s, db)
  | .ok (locked, s1) =>
    if locked then (.raised (.authError lockedMsg), s1, db)
    else
      match usersQuery db username with
      | none => (.ok none, record_failed_attempt cfg now s1 username, db)
      | some row =>
        if !row.is_active then (.raised (.authError deactivatedMsg), s1, db)
        else
          let ph := strOrD row.password_hash ""
          let psalt := strOrD row.password_salt ""
          if verify_password digest gen password ph psalt then
            let s2 := clear_failed_attempts s1 username
            let db2 := update_last_login db username now
            (.ok (get_user db2 username), s2, db2)
          else
            (.ok none, record_failed_attempt cfg now s1 username, db)

/-- `AuthHandler.login`: wraps `authenticate`; on a `User`, stores the
serialized user, the `authenticated` flag and `login_time = now` in session
state and returns `True`; on `None` or on any raised error returns `False`
(the error is surfaced via `st.error`, never re-raised). -/
def login (digest : String → String) (gen : String) (cfg : Config)
    (now : Nat) (db : List DBRow) (s : SessionState)
    (username password : String) : Bool × SessionState × List DBRow :=
  match authenticate digest gen cfg now db s username password with
  | (.ok (some user), s1, db1) =>
      (true,
        { s1 with user := some user.to_dict,
                  authenticated := some true,
                  login_time := some (some now) },
        db1)
  | (.ok none, s1, db1) => (false, s1, db1)
  | (.raised _, s1, db1) => (false, s1, db1)

/-- `AuthHandler.logout`: delete the `user`, `authenticated` and
`login_time` keys. -/
def logout (s : SessionState) : SessionState :=
  { s with user := none, authenticated := none, login_time := none }

/-- `AuthHandler.is_authenticated`: falsy `authenticated` flag → `False`;
then, when a `login_time` key exists, `fromisoformat` parses it (raising
`ValueError` on a malformed string) and `now - login_time > session_timeout`
triggers `logout` and `False`; otherwise `True`. -/
def is_authenticated (cfg : Config) (now : Nat) (s : SessionState) :
    PyOutcome (Bool × SessionState) :=
  if s.authenticated.getD false = false then .ok (false, s)
  else
    match s.login_time with
    | none => .ok (true, s)
    | some lt =>
      match lt with
      | none => .raised .valueError
      | some t =>
        if (cfg.session_timeout : Int) < (now : Int) - (t : Int) then
          .ok (false, logout s)
        else .ok (true, s)

/-- `AuthHandler.get_current_user`: `User.from_dict` of the stored dict when
authenticated and a `user` key exists, else `None`. -/
def get_current_user (cfg : Config) (now : Nat) (s : SessionState) :
    PyOutcome (Option User × SessionState) :=
  match is_authenticated cfg now s with
  | .raised e => .raised e
  | .ok (true, s1) =>
      match s1.user with
      | some d => .ok (some (User.from_dict d), s1)
      | none => .ok (none, s1)
  | .ok (false, s1) => .ok (none, s1)

/-- The static permission table of `check_permission` in
`src/auth/decorators.py` (`permissions.get(permission, [])`). -/
def permissions (permission : String) : List String :=
  if permission = "view_all_data" then ["admin", "manager"]
  else if permission = "export_data" then ["admin", "manager", "sales", "supply_chain"]
  else if permission = "manage_users" then ["admin"]
  else if permission = "view_costs" then ["admin", "manager", "supply_chain"]
  else if permission = "edit_settings" then ["admin"]
  else []

/-- `check_permission` of `src/auth/decorators.py`. -/
def check_permission (cfg : Config) (now : Nat) (s : SessionState)
    (permission : String) : PyOutcome (Bool × SessionState) :=
  match get_current_user cfg now s with
  | .raised e => .raised e
  | .ok (none, s1) => .ok (false, s1)
  | .ok (some u, s1) => .ok (u.has_any_role (permissions permission), s1)

/-! ### Fixtures used by the concrete witnesses -/

/-- The default tunables: `max_attempts = 3`, `lockout_duration = 900`,
`session_timeout = 3600`. -/
def cfg0 : Config := ⟨3, 900, 3600⟩

/-- A model digest used for concrete evaluation. -/
def digest0 : String → String := fun s => s

/-- A users-table row for "alice" whose stored hash matches password "pw"
under salt "salt" and `digest0`. -/
def rowAlice : DBRow :=
  ⟨1, "alice", some "a@x.com", some "admin", none, true, none, none,
   some "pwsalt", some "salt", false⟩

/-! ### Helper lemmas -/

theorem getAttempts_clear (s : SessionState) (u : String) :
    getAttempts (clear_failed_attempts s u) u = [] := by
  unfold getAttempts clear_failed_attempts
  simp only []
  have h : (s.failed.filter (fun kv => kv.1 != u)).find? (fun kv => kv.1 == u) = none := by
    rw [List.find?_filter, List.find?_eq_none]
    intro kv _
    simp [bne]
  rw [h]

/-! ### C3 — hash / verify round trip -/

/-- C3 counterexample: with the empty salt, `hash_password` discards the
supplied salt and generates a fresh one (`if not salt`), and `verify_password`
generates yet another; so `verify(p, hash(p, "").hash, "")` is `false`, not
`true` as the claim states for "every salt". -/
theorem c3_counterexample :
    verify_password (fun s => s) "b" "p"
      (hash_password (fun s => s) "a" "p" (some "")).1 "" = false := by decide

/-- C3 (amended): for every nonempty salt, verifying a password against the
hash component of `hash_password` of that same password and salt succeeds;
and any other password whose concatenation digests differently fails. -/
theorem c3_verify_roundtrip (digest : String → String) (gen gen2 gen3 : String)
    (p p2 salt : String)
    (hsalt : ¬ salt.isEmpty = true)
    (hcoll : digest (p2 ++ salt) ≠ digest (p ++ salt)) :
    verify_password digest gen2 p (hash_password digest gen p (some salt)).1 salt = true
    ∧ verify_password digest gen3 p2 (hash_password digest gen p (some salt)).1 salt = false := by
  unfold verify_password hash_password
  simp [hsalt, hcoll]

/-- Witness for `c3_verify_roundtrip` at password "pw", wrong password "qw",
salt "salt", with the identity digest. -/
theorem c3_verify_roundtrip_witness :
    verify_password (fun s => s) "g2" "pw"
      (hash_password (fun s => s) "g" "pw" (some "salt")).1 "salt" = true
    ∧ verify_password (fun s => s) "g3" "qw"
      (hash_password (fun s => s) "g" "pw" (some "salt")).1 "salt" = false :=
  c3_verify_roundtrip (fun s => s) "g" "g2" "g3" "pw" "qw" "salt"
    (by decide) (by decide)

/-! ### C1 — locked account: terminal error, untouched state -/

/-- C1: when the recorded failed-attempt list for a username has length at
least `max_attempts` and its most recent entry is within `lockout_duration`
of now, `authenticate` raises the lockout `AuthenticationError` for every
password and every database content, leaving the session state and the
database exactly as they were (in particular no credential query and no
`last_login` update takes place). -/
theorem c1_locked_account (digest : String → String) (gen : String)
    (cfg : Config) (now : Nat) (db : List DBRow) (s : SessionState)
    (username password : String) (last : Nat)
    (hlen : cfg.max_attempts ≤ (getAttempts s username).length)
    (hlast : (getAttempts s username).getLast? = some last)
    (hrecent : now < last + cfg.lockout_duration) :
    authenticate digest gen cfg now db s username password =
      (.raised (.authError lockedMsg), s, db) := by
  unfold authenticate is_account_locked
  rw [if_pos hlen, hlast]
  simp [hrecent]

/-- Witness for `c1_locked_account`: three failures at times 98‥100 and a
fourth attempt (with the correct password!) at time 100. -/
theorem c1_locked_account_witness :
    authenticate digest0 "g" cfg0 100 [rowAlice]
      (setAttempts SessionState.empty "alice" [98, 99, 100]) "alice" "pw" =
      (.raised (.authError lockedMsg),
       setAttempts SessionState.empty "alice" [98, 99, 100], [rowAlice]) :=
  c1_locked_account digest0 "g" cfg0 100 [rowAlice]
    (setAttempts SessionState.empty "alice" [98, 99, 100]) "alice" "pw" 100
    (by decide) (by decide) (by decide)

/-! ### C4 — the lockout predicate -/

/-- C4: `is_account_locked` reports `true` (with state untouched) exactly
when the retained attempt count reaches `max_attempts` and the most recent
attempt is within `lockout_duration` of now; and when the count has reached
`max_attempts` but the window has expired, it clears the username's attempt
list and reports `false`. -/
theorem c4_is_locked_spec (cfg : Config) (now : Nat) (s : SessionState)
    (username : String) :
    (is_account_locked cfg now s username = .ok (true, s) ↔
      cfg.max_attempts ≤ (getAttempts s username).length ∧
        ∃ last, (getAttempts s username).getLast? = some last ∧
          now < last + cfg.lockout_duration)
    ∧ (cfg.max_attempts ≤ (getAttempts s username).length →
        ∀ last, (getAttempts s username).getLast? = some last →
          last + cfg.lockout_duration ≤ now →
          is_account_locked cfg now s username =
            .ok (false, setAttempts s username [])) := by
  constructor
  · unfold is_account_locked
    by_cases hlen : cfg.max_attempts ≤ (getAttempts s username).length
    · rw [if_pos hlen]
      cases hlast : (getAttempts s username).getLast? with
      | none => simp [hlen, hlast]
      | some last =>
        by_cases hrec : now < last + cfg.lockout_duration
        · simp [hlen, hlast, hrec]
        · simp [hlen, hlast, hrec]
    · simp [hlen]
  · intro hlen last hlast hexp
    unfold is_account_locked
    rw [if_pos hlen, hlast]
    simp [Nat.not_lt.mpr hexp]

/-- Witness for `c4_is_locked_spec`: three failures at times 0‥2; at time
2000 the window (900 s) has expired, so the check clears the list and
reports unlocked. -/
theorem c4_is_locked_spec_witness :
    is_account_locked cfg0 2000
      (setAttempts SessionState.empty "alice" [0, 1, 2]) "alice" =
      .ok (false, setAttempts (setAttempts SessionState.empty "alice" [0, 1, 2]) "alice" []) :=
  (c4_is_locked_spec cfg0 2000
      (setAttempts SessionState.empty "alice" [0, 1, 2]) "alice").2
    (by decide) 2 (by decide) (by decide)

/-! ### C5 — deactivated account -/

/-- C5: when the credential record exists with `is_active = false`, then
(i) whenever the lockout check passes, `authenticate` raises the
deactivation `AuthenticationError` for every password, leaving the session
exactly as the lockout check left it (no failed attempt is recorded) and the
database untouched, and (ii) under no circumstances does `authenticate`
return a `User` for that username. -/
theorem c5_deactivated (digest : String → String) (gen : String)
    (cfg : Config) (now : Nat) (db : List DBRow) (s : SessionState)
    (username password : String) (row : DBRow)
    (hrow : usersQuery db username = some row)
    (hinactive : row.is_active = false) :
    (∀ s1, is_account_locked cfg now s username = .ok (false, s1) →
        authenticate digest gen cfg now db s username password =
          (.raised (.authError deactivatedMsg), s1, db))
    ∧ ∀ u s1 db1, authenticate digest gen cfg now db s username password ≠
        (.ok (some u), s1, db1) := by
  constructor
  · intro s1 hlock
    unfold authenticate
    rw [hlock]
    simp [hrow, hinactive]
  · intro u s1 db1
    unfold authenticate
    cases h : is_account_locked cfg now s username with
    | raised e => simp
    | ok p =>
      obtain ⟨locked, s2⟩ := p
      cases locked with
      | true => simp
      | false => simp [hrow, hinactive]

/-- Witness for `c5_deactivated`: alice deactivated, correct password,
empty session. -/
theorem c5_deactivated_witness :
    authenticate digest0 "g" cfg0 10 [{ rowAlice with is_active := false }]
      SessionState.empty "alice" "pw" =
      (.raised (.authError deactivatedMsg), SessionState.empty,
       [{ rowAlice with is_active := false }]) :=
  (c5_deactivated digest0 "g" cfg0 10 [{ rowAlice with is_active := false }]
      SessionState.empty "alice" "pw" { rowAlice with is_active := false }
      (by decide) (by decide)).1 SessionState.empty (by decide)

/-! ### C7 — unknown username vs wrong password -/

/-- C7: starting from any session state that passes the lockout check, a
login attempt for a username with no credential record and one for a
username whose record exists (active) but whose password fails verification
produce the same outcome: `None` (no error), the identical recorded failed
attempt in session state, and an untouched database. -/
theorem c7_enumeration_resistance (digest : String → String) (gen : String)
    (cfg : Config) (now : Nat) (dbU dbK : List DBRow) (s s1 : SessionState)
    (username password : String) (row : DBRow)
    (hlock : is_account_locked cfg now s username = .ok (false, s1))
    (habsent : usersQuery dbU username = none)
    (hrow : usersQuery dbK username = some row)
    (hactive : row.is_active = true)
    (hwrong : verify_password digest gen password
        (strOrD row.password_hash "") (strOrD row.password_salt "") = false) :
    authenticate digest gen cfg now dbU s username password =
      (.ok none, record_failed_attempt cfg now s1 username, dbU)
    ∧ authenticate digest gen cfg now dbK s username password =
      (.ok none, record_failed_attempt cfg now s1 username, dbK) := by
  constructor
  · unfold authenticate
    rw [hlock]
    simp [habsent]
  · unfold authenticate
    rw [hlock]
    simp [hrow, hactive, hwrong]

/-- Witness for `c7_enumeration_resistance`: unknown user "alice" against an
empty table versus known "alice" with the wrong password — both runs yield
`None` and record attempt time 10. -/
theorem c7_enumeration_resistance_witness :
    authenticate digest0 "g" cfg0 10 [] SessionState.empty "alice" "bad" =
      (.ok none, record_failed_attempt cfg0 10 SessionState.empty "alice", [])
    ∧ authenticate digest0 "g" cfg0 10 [rowAlice] SessionState.empty "alice" "bad" =
      (.ok none, record_failed_attempt cfg0 10 SessionState.empty "alice", [rowAlice]) :=
  c7_enumeration_resistance digest0 "g" cfg0 10 [] [rowAlice]
    SessionState.empty SessionState.empty "alice" "bad" rowAlice
    (by decide) (by decide) (by decide) (by decide) (by decide)

/-! ### C8 — successful authentication -/

theorem usersQuery_update_last_login (db : List DBRow) (username : String)
    (now : Nat) :
    usersQuery (update_last_login db username now) username =
      (usersQuery db username).map
        (fun r => if r.username == username then { r with last_login := some now } else r) := by
  unfold usersQuery update_last_login
  rw [List.find?_map]
  have hp : ((fun (r : DBRow) => r.username == username && !r.delete_flag) ∘
      (fun r => if r.username == username then { r with last_login := some now } else r)) =
      (fun (r : DBRow) => r.username == username && !r.delete_flag) := by
    funext r
    simp only [Function.comp_apply]
    by_cases h : (r.username == username) = true
    · rw [if_pos h]
    · rw [if_neg h]
  rw [hp]

/-- C8: when the lockout check passes, the credential row is active and the
password verifies, `authenticate` (i) clears the username's failed-attempt
entries, updates the stored `last_login` to now, and returns the full `User`
projection of the (updated) row; (ii) afterwards the cleared attempt list is
empty, every row of that username carries `last_login = now`, and
`is_account_locked` reports unlocked at every later time, no matter how many
failures had been recorded before. -/
theorem c8_success_clears_failures (digest : String → String) (gen : String)
    (cfg : Config) (now : Nat) (db : List DBRow) (s s1 : SessionState)
    (username password : String) (row : DBRow)
    (hmax : 1 ≤ cfg.max_attempts)
    (hlock : is_account_locked cfg now s username = .ok (false, s1))
    (hrow : usersQuery db username = some row)
    (hactive : row.is_active = true)
    (hok : verify_password digest gen password
        (strOrD row.password_hash "") (strOrD row.password_salt "") = true) :
    authenticate digest gen cfg now db s username password =
      (.ok (get_user (update_last_login db username now) username),
       clear_failed_attempts s1 username,
       update_last_login db username now)
    ∧ getAttempts (clear_failed_attempts s1 username) username = []
    ∧ get_user (update_last_login db username now) username =
        some (rowToUser { row with last_login := some now })
    ∧ (∀ r ∈ update_last_login db username now,
        r.username = username → r.last_login = some now)
    ∧ (∀ t, is_account_locked cfg t (clear_failed_attempts s1 username) username =
        .ok (false, clear_failed_attempts s1 username)) := by
  have hname : row.username == username := by
    have := List.find?_some hrow
    exact (Bool.and_eq_true _ _).mp this |>.1
  refine ⟨?_, getAttempts_clear s1 username, ?_, ?_, ?_⟩
  · unfold authenticate
    rw [hlock]
    simp [hrow, hactive, hok]
  · unfold get_user
    rw [usersQuery_update_last_login, hrow]
    have h2 : row.username = username := eq_of_beq hname
    simp [h2]
  · intro r hr hrname
    rw [update_last_login, List.mem_map] at hr
    obtain ⟨r0, _, rfl⟩ := hr
    by_cases h : r0.username == username
    · simp [h]
    · rw [if_neg h] at hrname ⊢
      exact absurd (by simp [hrname]) h
  · intro t
    unfold is_account_locked
    rw [getAttempts_clear]
    have : ¬ cfg.max_attempts ≤ ([] : List Nat).length := by
      simp only [List.length_nil]
      omega
    rw [if_neg this]

/-- Witness for `c8_success_clears_failures`: alice logs in correctly at
time 500 after two earlier failures. -/
theorem c8_success_clears_failures_witness :
    authenticate digest0 "g" cfg0 500 [rowAlice]
      (setAttempts SessionState.empty "alice" [400, 450]) "alice" "pw" =
      (.ok (get_user (update_last_login [rowAlice] "alice" 500) "alice"),
       clear_failed_attempts (setAttempts SessionState.empty "alice" [400, 450]) "alice",
       update_last_login [rowAlice] "alice" 500) :=
  (c8_success_clears_failures digest0 "g" cfg0 500 [rowAlice]
      (setAttempts SessionState.empty "alice" [400, 450])
      (setAttempts SessionState.empty "alice" [400, 450])
      "alice" "pw" rowAlice
      (by decide) (by decide) (by decide) (by decide) (by decide)).1

/-! ### C2 — session lifecycle -/

/-- C2: `is_authenticated` is `false` when no session exists (no
`authenticated` key); it is `true` on the state a successful `login` just
established; and once `now - login_time` exceeds `session_timeout` it is
`false` and the very call tears the session down (`user`, `authenticated`
and `login_time` keys all removed). -/
theorem c2_session_lifecycle (cfg : Config) (now lt : Nat) (s : SessionState) :
    (s.authenticated = none → is_authenticated cfg now s = .ok (false, s))
    ∧ (∀ digest gen db username password s1 db1,
        login digest gen cfg now db s username password = (true, s1, db1) →
        is_authenticated cfg now s1 = .ok (true, s1))
    ∧ (s.authenticated = some true → s.login_time = some (some lt) →
        (cfg.session_timeout : Int) < (now : Int) - (lt : Int) →
        is_authenticated cfg now s = .ok (false, logout s)
          ∧ (logout s).user = none ∧ (logout s).authenticated = none
          ∧ (logout s).login_time = none) := by
  refine ⟨?_, ?_, ?_⟩
  · intro h
    unfold is_authenticated
    simp [h]
  · intro digest gen db username password s1 db1 hlogin
    unfold login at hlogin
    rcases hauth : authenticate digest gen cfg now db s username password with
      ⟨out, s2, db2⟩
    rw [hauth] at hlogin
    cases out with
    | raised e => simp at hlogin
    | ok oU =>
      cases oU with
      | none => simp at hlogin
      | some user =>
        simp only [Prod.mk.injEq, true_and] at hlogin
        obtain ⟨hs1, -⟩ := hlogin
        rw [← hs1]
        unfold is_authenticated
        simp
  · intro h1 h2 h3
    refine ⟨?_, rfl, rfl, rfl⟩
    unfold is_authenticated
    rw [h1]
    simp only [Option.getD_some, h2]
    rw [if_pos h3]
    simp

/-- Witness for `c2_session_lifecycle`: the empty session is
unauthenticated; alice's fresh login at time 10 is authenticated at time 10;
an hour-old session at time 5000 is expired and torn down. -/
theorem c2_session_lifecycle_witness :
    is_authenticated cfg0 10 SessionState.empty = .ok (false, SessionState.empty)
    ∧ is_authenticated cfg0 10
        (login digest0 "g" cfg0 10 [rowAlice] SessionState.empty "alice" "pw").2.1 =
        .ok (true, (login digest0 "g" cfg0 10 [rowAlice] SessionState.empty "alice" "pw").2.1)
    ∧ is_authenticated cfg0 5000 ⟨none, some true, some (some 10), []⟩ =
        .ok (false, logout ⟨none, some true, some (some 10), []⟩) :=
  ⟨(c2_session_lifecycle cfg0 10 10 SessionState.empty).1 rfl,
   (c2_session_lifecycle cfg0 10 10 SessionState.empty).2.1 digest0 "g" [rowAlice]
     "alice" "pw"
     (login digest0 "g" cfg0 10 [rowAlice] SessionState.empty "alice" "pw").2.1
     (login digest0 "g" cfg0 10 [rowAlice] SessionState.empty "alice" "pw").2.2
     (by decide),
   ((c2_session_lifecycle cfg0 5000 10 ⟨none, some true, some (some 10), []⟩).2.2
     rfl rfl (by decide)).1⟩

/-! ### C6 — malformed login_time -/

/-- C6 counterexample: with `authenticated = True` and a malformed
`login_time` string, `is_authenticated` raises `ValueError` (from
`datetime.fromisoformat`) instead of returning `false` — the claim's
degrade-to-unauthenticated behaviour does not hold. -/
theorem c6_counterexample :
    is_authenticated cfg0 0 ⟨none, some true, some none, []⟩ =
      .raised .valueError := by decide

/-- C6 (amended): for every session whose `authenticated` flag is set and
whose stored `login_time` is a malformed timestamp string,
`is_authenticated` propagates the parse error (`ValueError`) rather than
returning a boolean. -/
theorem c6_malformed_login_time (cfg : Config) (now : Nat) (s : SessionState)
    (hauth : s.authenticated = some true)
    (hbad : s.login_time = some none) :
    is_authenticated cfg now s = .raised .valueError := by
  unfold is_authenticated
  rw [hauth]
  simp [hbad]

/-- Witness for `c6_malformed_login_time`. -/
theorem c6_malformed_login_time_witness :
    is_authenticated cfg0 7 ⟨none, some true, some none, []⟩ =
      .raised .valueError :=
  c6_malformed_login_time cfg0 7 ⟨none, some true, some none, []⟩ rfl rfl

/-! ### C9 — check_permission -/

/-- C9: `check_permission` is `false` whenever the session yields no current
user; `false` for every permission name outside the static table, even with
a user present; and for "manage_users" it is `true` exactly when the current
user's role is "admin". -/
theorem c9_check_permission (cfg : Config) (now : Nat) (s : SessionState) :
    (∀ p s1, get_current_user cfg now s = .ok (none, s1) →
        check_permission cfg now s p = .ok (false, s1))
    ∧ (∀ p, p ∉ ["view_all_data", "export_data", "manage_users", "view_costs",
          "edit_settings"] →
        ∀ u s1, get_current_user cfg now s = .ok (some u, s1) →
          check_permission cfg now s p = .ok (false, s1))
    ∧ (∀ u s1, get_current_user cfg now s = .ok (some u, s1) →
        (check_permission cfg now s "manage_users" = .ok (true, s1) ↔
          u.role = "admin")) := by
  refine ⟨?_, ?_, ?_⟩
  · intro p s1 hcur
    unfold check_permission
    rw [hcur]
  · intro p hp u s1 hcur
    unfold check_permission
    rw [hcur]
    simp only [List.mem_cons, List.mem_singleton, not_or] at hp
    obtain ⟨h1, h2, h3, h4, h5, -⟩ := hp
    simp [permissions, h1, h2, h3, h4, h5, User.has_any_role]
  · intro u s1 hcur
    unfold check_permission
    rw [hcur]
    simp [permissions, User.has_any_role, eq_comm]

/-- A serialized admin user dict as `login` would store it. -/
def uAdminDict : User :=
  ⟨1, "alice", "a@x.com", "admin", none, true, PyVal.str (some 10) false, PyVal.none'⟩

/-- A session holding `uAdminDict`, authenticated at time 10. -/
def sAdmin : SessionState := ⟨some uAdminDict, some true, some (some 10), []⟩

/-- Witness for `c9_check_permission`: empty session → `false`; admin user
with unknown permission "bogus" → `false`; admin user with "manage_users" →
`true`. -/
theorem c9_check_permission_witness :
    check_permission cfg0 10 SessionState.empty "manage_users" =
        .ok (false, SessionState.empty)
    ∧ check_permission cfg0 10 sAdmin "bogus" = .ok (false, sAdmin)
    ∧ check_permission cfg0 10 sAdmin "manage_users" = .ok (true, sAdmin) :=
  ⟨(c9_check_permission cfg0 10 SessionState.empty).1 "manage_users"
      SessionState.empty (by decide),
   (c9_check_permission cfg0 10 sAdmin).2.1 "bogus" (by decide)
      (User.from_dict uAdminDict) sAdmin (by decide),
   ((c9_check_permission cfg0 10 sAdmin).2.2 (User.from_dict uAdminDict) sAdmin
      (by decide)).mpr (by decide)⟩

/-! ### C10 — User serialization round trip -/

/-- C10 counterexample: a `User` whose `created_date` is a datetime does not
survive the `to_dict`/`from_dict` round trip — `from_dict` never converts
`created_date` back from its ISO string. -/
theorem c10_counterexample :
    User.from_dict (User.to_dict
        ⟨1, "a", "e", "admin", none, true, PyVal.none', PyVal.dt 5⟩) ≠
      ⟨1, "a", "e", "admin", none, true, PyVal.none', PyVal.dt 5⟩ := by decide

/-- C10 (amended): the round trip `from_dict ∘ to_dict` restores a `User`
exactly when `last_login` is well typed (`None` or a datetime) and
`created_date` is `None`; a datetime `created_date` comes back as its
ISO-format string instead. -/
theorem c10_roundtrip (u : User)
    (hll : u.last_login = PyVal.none' ∨ ∃ t, u.last_login = PyVal.dt t)
    (hcd : u.created_date = PyVal.none') :
    User.from_dict (User.to_dict u) = u := by
  unfold User.from_dict User.to_dict
  rcases hll with h | ⟨t, h⟩ <;>
    cases u <;>
    simp_all [serializeDT, deserializeLastLogin]

/-- Witness for `c10_roundtrip` at a user with a datetime `last_login` and
no `created_date`. -/
theorem c10_roundtrip_witness :
    User.from_dict (User.to_dict
        ⟨2, "bob", "b@x.com", "viewer", some 7, true, PyVal.dt 42, PyVal.none'⟩) =
      ⟨2, "bob", "b@x.com", "viewer", some 7, true, PyVal.dt 42, PyVal.none'⟩ :=
  c10_roundtrip ⟨2, "bob", "b@x.com", "viewer", some 7, true, PyVal.dt 42, PyVal.none'⟩
    (Or.inr ⟨42, rfl⟩) rfl

end Auth

